import Mathlib

/-!
Shallow embedding of `src/c_src/erl_comm.c` (xfp_statem): the frame reader
`read_cmd`, the frame writer `write_exact` / `write_cmd`, and the reply
helper `send_answer_string_ulong`.

Modelling conventions:
* Bytes are `Nat` values; all bytes produced by the modelled code are `< 256`.
* The inbound stream (fd 0) is a script of deliveries: `Rd.data bs` is a
  chunk of pending bytes (a `read` takes at most the head chunk, as with a
  pipe where each delivery is a separate write), `Rd.rerr e` scripts a read
  returning `e ≤ 0`, and an empty script models a closed stream
  (`read` returns 0).
* The outbound stream (fd 1) is a script of responses: entry `r > 0` means
  the next `write` accepts up to `r` bytes, `r ≤ 0` means it fails with `r`;
  an exhausted script accepts everything.  `write(fd, p, 0)` returns 0, as
  POSIX specifies; both script cases reproduce that.
* `realloc(buf, len)` growing the buffer is modelled as in-place extension
  (content preserved, the fresh region filled with an arbitrary garbage
  byte `g`); the subsequent `memset(*pbuf, 0, len - *size)` of the source
  then zeroes the FIRST `len - *size` bytes of that same block, exactly as
  the C does when `realloc` grows in place (when `realloc` moves the block
  the C writes through a dangling pointer, which has no defined meaning to
  embed).  Allocation failure (`realloc` returning `NULL`) is an explicit
  oracle `allocFail`.
* C `int` values that are only ever non-negative in the modelled code
  (`*size`, `*curpos`, `len` after masking, `index`, byte counts requested)
  are `Nat`; values that can be negative (read/write results, `desired`)
  are `Int`.
-/

namespace ErlComm

/-- One scripted event of the inbound stream: a chunk of delivered bytes,
or a read that fails with result `e ≤ 0`. -/
inductive Rd where
  | data (bs : List Nat) : Rd
  | rerr (e : Int) : Rd
deriving DecidableEq

/-- `read(0, _, n)`: consume from the head of the inbound script.  Returns
(result, bytes read, rest of script).  A chunk yields `min n chunkLen`
bytes (the remainder of the chunk stays pending); an empty script models a
closed stream (result 0); an error event yields its scripted result. -/
def readSys (n : Nat) (s : List Rd) : Int × List Nat × List Rd :=
  match s with
  | [] => (0, [], [])
  | Rd.rerr e :: rest => (e, [], rest)
  | Rd.data bs :: rest =>
      let k := min n bs.length
      if k = bs.length then ((k : Int), bs.take k, rest)
      else ((k : Int), bs.take k, Rd.data (bs.drop k) :: rest)

/-- `write(1, p, n)` offered the bytes `bs` (with `n = bs.length`): consume
the head response of the outbound script.  Returns (result, bytes actually
transmitted, rest of script). -/
def writeSys (bs : List Nat) (script : List Int) : Int × List Nat × List Int :=
  match script with
  | [] => ((bs.length : Int), bs, [])
  | r :: rest =>
      if r ≤ 0 then (r, [], rest)
      else
        let k := min r.toNat bs.length
        ((k : Int), bs.take k, rest)

/-- Store the bytes `bs` into `l` starting at offset `off` (the effect of
`read` writing into `buf + off`).  A store past the end of `l` extends the
list, mirroring the C's out-of-bounds heap write doing its damage silently. -/
def storeBytes (l : List Nat) (off : Nat) (bs : List Nat) : List Nat :=
  l.take off ++ bs ++ l.drop (off + bs.length)

/-- `memset(p, 0, n)` on the prefix of a byte list. -/
def memset0 (l : List Nat) (n : Nat) : List Nat :=
  List.replicate (min n l.length) 0 ++ l.drop n

/-- `buf[i]` as an unsigned byte (out-of-range reads give 0). -/
def byteAt (l : List Nat) (i : Nat) : Nat :=
  l.getD i 0

/-- The 32-bit two's-complement pattern of the byte `b` after it is stored
in a (signed) `char` and promoted to `int`: the pattern is `b` itself below
128, and the sign-extended `2^32 - 256 + b` otherwise (the value of the
promoted `int` is then negative). -/
def scharPat (b : Nat) : Nat :=
  if b % 256 < 128 then b % 256 else 2 ^ 32 - 256 + b % 256

/-- Line 42 of the source, on 32-bit `int` patterns:
`len = ((buf[0] << 8) & 0x0000ff00) | (buf[1] & 0x00ff)`.  The result is
provably at most `0xffff`, so the pattern is the value of the C `int`. -/
def decodeLen (b0 b1 : Nat) : Nat :=
  (((scharPat b0 <<< 8) % 2 ^ 32) &&& 0xff00) ||| (scharPat b1 &&& 0xff)

/-- The reader state threaded by reference through `read_cmd`:
`*pbuf` (its bytes), `*size` (capacity) and `*curpos` (cursor). -/
structure RState where
  buf : List Nat
  size : Nat
  curpos : Nat
deriving DecidableEq

/-- The local `len` of `read_cmd`: the frame length decoded from the two
header bytes of the buffer. -/
def frameLen (st : RState) : Nat :=
  decodeLen (byteAt st.buf 0) (byteAt st.buf 1)

/-- The local `desired` of `read_cmd`: `len - *curpos + 2`, as the C `int`. -/
def desiredOf (st : RState) : Int :=
  (frameLen st : Int) - (st.curpos : Int) + 2

/-- A well-formed inbound script: scripted read errors are `≤ 0`
(a real `read` never reports a positive count without delivering bytes). -/
def rdOkB : Rd → Bool
  | Rd.data _ => true
  | Rd.rerr e => decide (e ≤ 0)

/-- All events of the inbound script are well-formed. -/
abbrev streamOk (s : List Rd) : Prop :=
  ∀ r ∈ s, rdOkB r = true

/-- The single body read at the end of `read_cmd` (lines 57-62): read
`desired` bytes at offset `curpos`; a result `≤ 0` returns 0, otherwise
the cursor advances and the call returns 2. -/
def bodyRead (buf : List Nat) (size curpos : Nat) (desired : Int) (s : List Rd) :
    Int × RState × List Rd :=
  let r := readSys desired.toNat s
  if r.1 ≤ 0 then (0, ⟨buf, size, curpos⟩, r.2.2)
  else (2, ⟨storeBytes buf curpos r.2.1, size, curpos + r.1.toNat⟩, r.2.2)

/-- Lines 41-62 of `read_cmd`: decode the length, grow the buffer if the
length exceeds the capacity (the growth path reproduces the source's
`memset(*pbuf, 0, len - (*size))`, which zeroes the START of the buffer),
then perform the body read. -/
def bodyPhase (g : Nat) (allocFail : Bool) (st : RState) (s : List Rd) :
    Int × RState × List Rd :=
  let len := frameLen st
  let desired : Int := desiredOf st
  if st.size < len then
    if allocFail then (-1, st, s)
    else
      let grown := st.buf.take st.size ++ List.replicate (len - st.size) g
      bodyRead (memset0 grown (len - st.size)) len st.curpos desired s
  else
    bodyRead st.buf st.size st.curpos desired s

/-- `read_cmd` (lines 20-63).  `g` is the garbage byte filling a freshly
grown region, `allocFail` the allocation-failure oracle.  Returns the C
return value, the updated `(*pbuf, *size, *curpos)` state, and the rest of
the inbound stream. -/
def read_cmd (g : Nat) (allocFail : Bool) (st : RState) (s : List Rd) :
    Int × RState × List Rd :=
  if st.curpos < 2 then
    let r := readSys (2 - st.curpos) s
    if r.1 ≤ 0 then (r.1, st, r.2.2)
    else
      let buf1 := storeBytes st.buf st.curpos r.2.1
      let cur1 := st.curpos + r.1.toNat
      if cur1 < 2 then (1, ⟨buf1, st.size, cur1⟩, r.2.2)
      else bodyPhase g allocFail ⟨buf1, st.size, cur1⟩ r.2.2
  else bodyPhase g allocFail st s

/-- The do-while loop of `write_exact`, fuelled (the fuel `len + 1` of
`write_exact` is never exhausted, since every continuing iteration writes
at least one byte).  `wrote` is the loop counter, `out` the bytes
transmitted so far in this call. -/
def writeExactAux (data : List Nat) (len : Nat) :
    Nat → Nat → List Int → List Nat → Int × List Nat × List Int
  | 0, _, script, out => (-1, out, script)
  | fuel + 1, wrote, script, out =>
      let w := writeSys ((data.take len).drop wrote) script
      if w.1 ≤ 0 then (w.1, out, w.2.2)
      else
        let wrote1 := wrote + w.1.toNat
        if wrote1 < len then writeExactAux data len fuel wrote1 w.2.2 (out ++ w.2.1)
        else ((len : Int), out ++ w.2.1, w.2.2)

/-- `write_exact` (lines 65-75): write `buf[0..len)`, looping over partial
writes; an underlying write result `≤ 0` is returned at once, otherwise
the call returns `len`.  Also returns the bytes transmitted and the rest
of the outbound script. -/
def write_exact (buf : List Nat) (len : Nat) (script : List Int) :
    Int × List Nat × List Int :=
  writeExactAux buf len (len + 1) 0 script []

/-- `li = (buff->index >> 8) & 0xff`: the high header byte. -/
def hiByte (index : Nat) : Nat :=
  (index >>> 8) &&& 0xff

/-- `li = buff->index & 0xff`: the low header byte. -/
def loByte (index : Nat) : Nat :=
  index &&& 0xff

/-- `write_cmd` (lines 77-86): write the two big-endian header bytes of
`index` (each via `write_exact`, results IGNORED as in the source), then
the `index` payload bytes, returning the result of that last
`write_exact` together with all bytes transmitted by the three calls. -/
def write_cmd (buff : List Nat) (index : Nat) (script : List Int) :
    Int × List Nat × List Int :=
  let r1 := write_exact [hiByte index] 1 script
  let r2 := write_exact [loByte index] 1 r1.2.2
  let r3 := write_exact buff index r2.2.2
  (r3.1, r1.2.1 ++ r2.2.1 ++ r3.2.1, r3.2.2)

/-- `send_answer_string_ulong` (lines 93-109).  The four `ei_x_*` encoding
steps are external collaborators; `e1`-`e4` are oracles for their failure
(C nonzero result) and `payload` stands for the encoded bytes the
successful encoding leaves in `result.buff` (with `result.index` its
length).  The C `||` chain short-circuits, so `write_cmd` runs only when
every encoding step succeeded, and only a `write_cmd` result of exactly 0
sets `retval = -1`.  `ei_x_free` runs on every path.  Returns
(retval, buffer freed?, bytes transmitted, rest of outbound script). -/
def send_answer_string_ulong (e1 e2 e3 e4 : Bool) (payload : List Nat)
    (script : List Int) : Int × Bool × List Nat × List Int :=
  if e1 || e2 || e3 || e4 then (-1, true, [], script)
  else
    let r := write_cmd payload payload.length script
    (if r.1 = 0 then -1 else 0, true, r.2.1, r.2.2)

/-! ### Helper lemmas -/

set_option maxRecDepth 2000 in
theorem decodeLen_hiPart : ∀ b < 256, ((scharPat b <<< 8) % 2 ^ 32) &&& 0xff00 = 256 * b := by
  decide

set_option maxRecDepth 2000 in
theorem decodeLen_loPart : ∀ b < 256, scharPat b &&& 0xff = b := by
  decide

theorem decodeLen_eq (b0 b1 : Nat) (h0 : b0 < 256) (h1 : b1 < 256) :
    decodeLen b0 b1 = 256 * b0 + b1 := by
  unfold decodeLen
  rw [decodeLen_hiPart b0 h0, decodeLen_loPart b1 h1]
  have h := Nat.mul_add_lt_is_or (i := 8) (b := b1) (by omega : b1 < 2 ^ 8) b0
  norm_num at h
  omega

theorem hiByte_eq (n : Nat) (h : n ≤ 65535) : hiByte n = n / 256 := by
  unfold hiByte
  have hs : n >>> 8 = n / 256 := by
    rw [Nat.shiftRight_eq_div_pow]
  have hm : n / 256 &&& 0xff = n / 256 % 256 := by
    have := Nat.and_pow_two_sub_one_eq_mod (n / 256) 8
    norm_num at this
    exact this
  rw [hs, hm]
  omega

theorem loByte_eq (n : Nat) : loByte n = n % 256 := by
  unfold loByte
  have := Nat.and_pow_two_sub_one_eq_mod n 8
  norm_num at this
  exact this

theorem decodeLen_header (n : Nat) (h : n ≤ 65535) :
    decodeLen (hiByte n) (loByte n) = n := by
  rw [hiByte_eq n h, loByte_eq n, decodeLen_eq (n / 256) (n % 256) (by omega) (by omega)]
  omega

theorem readSys_pos (n : Nat) (s : List Rd) (hok : streamOk s)
    (hpos : 0 < (readSys n s).1) :
    ∃ bs rest, s = Rd.data bs :: rest ∧
      (readSys n s).1 = ((min n bs.length : Nat) : Int) ∧
      (readSys n s).2.1 = bs.take (min n bs.length) := by
  match s with
  | [] => simp [readSys] at hpos
  | Rd.rerr e :: rest =>
      have he := hok (Rd.rerr e) (by simp)
      simp [rdOkB] at he
      simp [readSys] at hpos
      omega
  | Rd.data bs :: rest =>
      refine ⟨bs, rest, rfl, ?_, ?_⟩ <;> simp [readSys] <;> split <;> simp

theorem read_cmd_eq_bodyPhase (g : Nat) (af : Bool) (st : RState) (s : List Rd)
    (h2 : 2 ≤ st.curpos) :
    read_cmd g af st s = bodyPhase g af st s := by
  unfold read_cmd
  rw [if_neg (by omega)]

theorem bodyRead_size (buf : List Nat) (sz cur : Nat) (d : Int) (s : List Rd) :
    (bodyRead buf sz cur d s).2.1.size = sz := by
  simp only [bodyRead]
  split <;> rfl

theorem bodyRead_pos (buf : List Nat) (sz cur : Nat) (d : Int) (s : List Rd)
    (hpos : 0 < (readSys d.toNat s).1) :
    bodyRead buf sz cur d s =
      (2, ⟨storeBytes buf cur (readSys d.toNat s).2.1, sz,
        cur + (readSys d.toNat s).1.toNat⟩, (readSys d.toNat s).2.2) := by
  unfold bodyRead
  rw [if_neg (by omega)]

theorem bodyRead_fail (buf : List Nat) (sz cur : Nat) (d : Int) (s : List Rd)
    (hfail : (readSys d.toNat s).1 ≤ 0) :
    bodyRead buf sz cur d s = (0, ⟨buf, sz, cur⟩, (readSys d.toNat s).2.2) := by
  unfold bodyRead
  rw [if_pos hfail]

theorem bodyPhase_noAllocFail (g : Nat) (st : RState) (s : List Rd) :
    bodyPhase g false st s =
      if st.size < frameLen st then
        bodyRead (memset0 (st.buf.take st.size ++
            List.replicate (frameLen st - st.size) g) (frameLen st - st.size))
          (frameLen st) st.curpos (desiredOf st) s
      else
        bodyRead st.buf st.size st.curpos (desiredOf st) s := by
  simp only [bodyPhase, Bool.false_eq_true, if_false]

theorem bodyPhase_size (g : Nat) (af : Bool) (st : RState) (s : List Rd) :
    st.size ≤ (bodyPhase g af st s).2.1.size := by
  simp only [bodyPhase]
  split
  case isTrue h =>
    split
    · exact Nat.le_refl _
    · rw [bodyRead_size]
      omega
  case isFalse h =>
    rw [bodyRead_size]

theorem le_bodyPhase_size (g : Nat) (af : Bool) (st : RState) (s : List Rd)
    (n : Nat) (h : n ≤ st.size) : n ≤ (bodyPhase g af st s).2.1.size :=
  Nat.le_trans h (bodyPhase_size g af st s)

/-! ### Claim theorems -/

/-- Claim C1, amended: in the body phase, whenever the underlying read
succeeds (positive count), `read_cmd` always returns 2 ("frame complete") —
even if the body is still incomplete; the cursor advances by the count read
and equals `L + 2` exactly when the read delivered the full remaining
`desired` amount. -/
theorem read_cmd_body_read_success (g : Nat) (st : RState) (s : List Rd)
    (h2 : 2 ≤ st.curpos) (hok : streamOk s)
    (hpos : 0 < (readSys (desiredOf st).toNat s).1) :
    (read_cmd g false st s).1 = 2 ∧
    (read_cmd g false st s).2.1.curpos =
      st.curpos + (readSys (desiredOf st).toNat s).1.toNat ∧
    ((read_cmd g false st s).2.1.curpos = frameLen st + 2 ↔
      (readSys (desiredOf st).toNat s).1 = desiredOf st) := by
  rw [read_cmd_eq_bodyPhase g false st s h2, bodyPhase_noAllocFail]
  obtain ⟨bs, rest, hs, hcnt, hbytes⟩ := readSys_pos (desiredOf st).toNat s hok hpos
  have hD : desiredOf st = (frameLen st : Int) - (st.curpos : Int) + 2 := rfl
  split
  · rw [bodyRead_pos _ _ _ _ _ hpos]
    refine ⟨rfl, rfl, ?_⟩
    dsimp only
    omega
  · rw [bodyRead_pos _ _ _ _ _ hpos]
    refine ⟨rfl, rfl, ?_⟩
    dsimp only
    omega

/-- Witness for C1 at a concrete input: a full remaining delivery of 5 body
bytes completes the frame with cursor 7. -/
theorem read_cmd_body_read_success_witness :
    (read_cmd 0 false ⟨[0,5,0,0,0,0,0], 7, 2⟩ [Rd.data [1,2,3,4,5]]).1 = 2 ∧
    (read_cmd 0 false ⟨[0,5,0,0,0,0,0], 7, 2⟩ [Rd.data [1,2,3,4,5]]).2.1.curpos =
      (⟨[0,5,0,0,0,0,0], 7, 2⟩ : RState).curpos +
        (readSys (desiredOf ⟨[0,5,0,0,0,0,0], 7, 2⟩).toNat
          [Rd.data [1,2,3,4,5]]).1.toNat ∧
    ((read_cmd 0 false ⟨[0,5,0,0,0,0,0], 7, 2⟩ [Rd.data [1,2,3,4,5]]).2.1.curpos =
        frameLen ⟨[0,5,0,0,0,0,0], 7, 2⟩ + 2 ↔
      (readSys (desiredOf ⟨[0,5,0,0,0,0,0], 7, 2⟩).toNat [Rd.data [1,2,3,4,5]]).1 =
        desiredOf ⟨[0,5,0,0,0,0,0], 7, 2⟩) :=
  read_cmd_body_read_success 0 ⟨[0,5,0,0,0,0,0], 7, 2⟩ [Rd.data [1,2,3,4,5]]
    (by decide) (by decide) (by decide)

/-- Counterexample to claim C1 as stated: header `[0,5]` (so `L + 2 = 7`),
and a body read that succeeds but delivers only 2 of the 5 remaining bytes.
`read_cmd` reports 2 ("frame complete") although the cursor is 4, not 7;
it does not report "call again" (1). -/
theorem read_cmd_reports_complete_on_partial_body :
    (read_cmd 0 false ⟨[0,5,0,0,0,0,0], 7, 2⟩ [Rd.data [1,2]]).1 = 2 ∧
    (read_cmd 0 false ⟨[0,5,0,0,0,0,0], 7, 2⟩ [Rd.data [1,2]]).2.1.curpos = 4 ∧
    frameLen ⟨[0,5,0,0,0,0,0], 7, 2⟩ = 5 ∧
    0 < (readSys (desiredOf ⟨[0,5,0,0,0,0,0], 7, 2⟩).toNat [Rd.data [1,2]]).1 := by
  decide

/-- Claim C5, amended: a body-phase read failure (result `≤ 0`) makes
`read_cmd` return 0 — the very value a header-phase read of 0 (stream
closure) also produces.  The two failure situations are therefore NOT
distinguishable from the return value alone; only a header-phase negative
error keeps its distinct (negative) value. -/
theorem read_cmd_failure_sentinel :
    (∀ (g : Nat) (st : RState) (s : List Rd), 2 ≤ st.curpos →
      (readSys (desiredOf st).toNat s).1 ≤ 0 → (read_cmd g false st s).1 = 0) ∧
    (∀ (g : Nat) (st : RState) (s : List Rd), st.curpos < 2 →
      (readSys (2 - st.curpos) s).1 = 0 → (read_cmd g false st s).1 = 0) := by
  constructor
  · intro g st s h2 hfail
    rw [read_cmd_eq_bodyPhase g false st s h2, bodyPhase_noAllocFail]
    split
    · rw [bodyRead_fail _ _ _ _ _ hfail]
    · rw [bodyRead_fail _ _ _ _ _ hfail]
  · intro g st s h2 hzero
    simp only [read_cmd]
    rw [if_pos h2, if_pos (by omega : (readSys (2 - st.curpos) s).1 ≤ 0)]
    exact hzero

/-- Witness for C5 at concrete inputs: a scripted body-phase error `-1`
yields 0, and a closed stream during the header phase also yields 0. -/
theorem read_cmd_failure_sentinel_witness :
    (read_cmd 0 false ⟨[0,5,0,0,0,0,0], 7, 2⟩ [Rd.rerr (-1)]).1 = 0 ∧
    (read_cmd 0 false ⟨[0,0], 2, 0⟩ []).1 = 0 :=
  ⟨read_cmd_failure_sentinel.1 0 ⟨[0,5,0,0,0,0,0], 7, 2⟩ [Rd.rerr (-1)]
      (by decide) (by decide),
    read_cmd_failure_sentinel.2 0 ⟨[0,0], 2, 0⟩ [] (by decide) (by decide)⟩

/-- Counterexample to claim C5 as stated: a header-phase closure (read
returns 0 on an empty stream) and a body-phase read failure (scripted
error `-1`) produce the SAME `read_cmd` result 0, so the caller cannot
tell the two situations apart from the return value alone. -/
theorem read_cmd_failures_not_distinct :
    (read_cmd 0 false ⟨[0,0], 2, 0⟩ []).1 = 0 ∧
    (read_cmd 0 false ⟨[0,5,0,0,0,0,0], 7, 2⟩ [Rd.rerr (-1)]).1 = 0 ∧
    (read_cmd 0 false ⟨[0,0], 2, 0⟩ []).1 =
      (read_cmd 0 false ⟨[0,5,0,0,0,0,0], 7, 2⟩ [Rd.rerr (-1)]).1 := by
  decide

/-- Claim C6: the capacity `*size` never decreases across a `read_cmd`
call; and when buffer growth is needed but allocation fails, `read_cmd`
returns `-1` with the buffer, capacity, cursor and stream exactly as they
were before the growth attempt. -/
theorem read_cmd_capacity_monotone_and_allocFail :
    (∀ (g : Nat) (af : Bool) (st : RState) (s : List Rd),
      st.size ≤ (read_cmd g af st s).2.1.size) ∧
    (∀ (g : Nat) (st : RState) (s : List Rd), 2 ≤ st.curpos →
      st.size < frameLen st → read_cmd g true st s = (-1, st, s)) := by
  constructor
  · intro g af st s
    simp only [read_cmd]
    split
    · split
      · exact Nat.le_refl _
      · split
        · exact Nat.le_refl _
        · exact le_bodyPhase_size g af _ _ _ (Nat.le_refl _)
    · exact le_bodyPhase_size g af _ _ _ (Nat.le_refl _)
  · intro g st s h2 hlt
    rw [read_cmd_eq_bodyPhase g true st s h2]
    simp only [bodyPhase]
    rw [if_pos hlt, if_pos trivial]

/-- Witness for C6 at a concrete input: a frame of length 6 against
capacity 4; with the allocation-failure oracle set, `read_cmd` returns
`-1` leaving state and stream untouched, and capacity never decreased. -/
theorem read_cmd_capacity_witness :
    (⟨[0,6,0,0], 4, 2⟩ : RState).size ≤
      (read_cmd 0 false ⟨[0,6,0,0], 4, 2⟩ [Rd.data [1,2,3,4,5,6]]).2.1.size ∧
    read_cmd 0 true ⟨[0,6,0,0], 4, 2⟩ [Rd.data [1,2,3,4,5,6]] =
      (-1, ⟨[0,6,0,0], 4, 2⟩, [Rd.data [1,2,3,4,5,6]]) :=
  ⟨read_cmd_capacity_monotone_and_allocFail.1 0 false ⟨[0,6,0,0], 4, 2⟩
      [Rd.data [1,2,3,4,5,6]],
    read_cmd_capacity_monotone_and_allocFail.2 0 ⟨[0,6,0,0], 4, 2⟩
      [Rd.data [1,2,3,4,5,6]] (by decide) (by decide)⟩

/-- Claim C2 (code bug, at the failing input): a frame of declared length 6
arriving against capacity 4 with the header already read.  The source's
`memset(*pbuf, 0, len - (*size))` zeroes the FIRST `len - size = 2` bytes —
the header `[0,6]` becomes `[0,0]` in the final buffer — while the newly
added capacity region still holds garbage (here byte 170) until the body
read overwrites it.  The second conjunct exhibits the grown buffer as it
stands right after the growth step: header destroyed, new region not zero. -/
theorem read_cmd_growth_memset_bug :
    read_cmd 170 false ⟨[0,6,0,0], 4, 2⟩ [Rd.data [1,2,3,4,5,6]] =
      (2, ⟨[0,0,1,2,3,4,5,6], 6, 8⟩, []) ∧
    memset0 ((⟨[0,6,0,0], 4, 2⟩ : RState).buf.take 4 ++ List.replicate (6 - 4) 170)
        (6 - 4) = [0,0,0,0,170,170] ∧
    [0,0,0,0,170,170].take 2 ≠ [0,6] ∧
    [0,0,0,0,170,170].drop 4 ≠ [0,0] := by
  decide

/-- Counterexample to claim C3 as stated: with the two deliveries
`[0x00,0x05]` and `[0x01..0x05]` pending, the FIRST `read_cmd` call already
returns 2 ("frame complete") with cursor 7 — not "call again" (1) with
cursor 2 — because after completing the header the same call falls through
into the body phase and reads the second delivery. -/
theorem read_cmd_scenarioA_first_call_completes :
    read_cmd 0 false ⟨List.replicate 7 0, 7, 0⟩
        [Rd.data [0,5], Rd.data [1,2,3,4,5]] =
      (2, ⟨[0,5,1,2,3,4,5], 7, 7⟩, []) := by
  decide

/-- Claim C3, amended: the first `read_cmd` call consumes BOTH deliveries —
header then body in the same call — and returns "frame complete" with
cursor 7, decoded length 5 and body bytes `[1,2,3,4,5]`; no intermediate
"call again" occurs once the header is complete. -/
theorem read_cmd_scenarioA_amended :
    read_cmd 0 false ⟨List.replicate 7 0, 7, 0⟩
        [Rd.data [0,5], Rd.data [1,2,3,4,5]] =
      (2, ⟨[0,5,1,2,3,4,5], 7, 7⟩, []) ∧
    frameLen ⟨[0,5,1,2,3,4,5], 7, 7⟩ = 5 ∧
    ([0,5,1,2,3,4,5].drop 2).take 5 = [1,2,3,4,5] := by
  decide

/-- Claim C8: for any pair of header bytes the decoded frame length is the
big-endian unsigned value `256 * b0 + b1`, hence in `[0, 65535]` — even
for bytes `≥ 128`, which are negative as signed chars (the sign-extended
pattern is built into `scharPat`, and the masks in `decodeLen` cancel the
sign extension). -/
theorem decodeLen_bigendian (b0 b1 : Nat) (h0 : b0 < 256) (h1 : b1 < 256) :
    decodeLen b0 b1 = 256 * b0 + b1 ∧ decodeLen b0 b1 ≤ 65535 := by
  have h := decodeLen_eq b0 b1 h0 h1
  exact ⟨h, by omega⟩

/-- Witness for C8 at bytes `0xAB, 0xCD` (both negative as signed chars):
the decoded length is `0xABCD`. -/
theorem decodeLen_bigendian_witness :
    decodeLen 0xAB 0xCD = 256 * 0xAB + 0xCD ∧ decodeLen 0xAB 0xCD ≤ 65535 :=
  decodeLen_bigendian 0xAB 0xCD (by decide) (by decide)

/-- Claim C9: if any encoding step fails, `send_answer_string_ulong`
returns `-1` having transmitted nothing (the writer is never invoked: the
outbound script is untouched), and the encode buffer is freed; moreover
the buffer is freed on EVERY exit path. -/
theorem send_answer_encode_failure_aborts :
    (∀ (e1 e2 e3 e4 : Bool) (payload : List Nat) (script : List Int),
      (e1 || e2 || e3 || e4) = true →
      send_answer_string_ulong e1 e2 e3 e4 payload script = (-1, true, [], script)) ∧
    (∀ (e1 e2 e3 e4 : Bool) (payload : List Nat) (script : List Int),
      (send_answer_string_ulong e1 e2 e3 e4 payload script).2.1 = true) := by
  constructor
  · intro e1 e2 e3 e4 payload script h
    unfold send_answer_string_ulong
    rw [if_pos h]
  · intro e1 e2 e3 e4 payload script
    unfold send_answer_string_ulong
    split
    · rfl
    · rfl

/-- Witness for C9 at a concrete input: the integer-encoding step fails
(`e4 = true`), so the call reports `-1`, transmits no bytes, leaves the
sink script `[5]` untouched, and frees the buffer. -/
theorem send_answer_encode_failure_witness :
    send_answer_string_ulong false false false true [1,2,3] [5] =
        (-1, true, [], [5]) ∧
    (send_answer_string_ulong false false false true [1,2,3] [5]).2.1 = true :=
  ⟨send_answer_encode_failure_aborts.1 false false false true [1,2,3] [5] (by decide),
    send_answer_encode_failure_aborts.2 false false false true [1,2,3] [5]⟩

/-- Claim C10: when every encoding step succeeds but `write_cmd` returns a
negative value, `send_answer_string_ulong` still returns 0 (success): the
source only treats a `write_cmd` result of exactly 0 as failure. -/
theorem send_answer_ignores_negative_write (payload : List Nat)
    (script : List Int)
    (hneg : (write_cmd payload payload.length script).1 < 0) :
    (send_answer_string_ulong false false false false payload script).1 = 0 := by
  unfold send_answer_string_ulong
  rw [if_neg (by simp)]
  dsimp only
  rw [if_neg (by omega)]

/-- Witness for C10 at a concrete input: the body write fails with `-1`
(script `[1,1,-1]`), `write_cmd` returns `-1`, yet the reply call reports
success (0). -/
theorem send_answer_ignores_negative_write_witness :
    (write_cmd [7] 1 [1,1,-1]).1 < 0 ∧
    (send_answer_string_ulong false false false false [7] [1,1,-1]).1 = 0 :=
  ⟨by decide, send_answer_ignores_negative_write [7] [1,1,-1] (by decide)⟩

theorem writeSys_sent (bs : List Nat) (script : List Int) :
    (writeSys bs script).2.1 = bs.take (writeSys bs script).1.toNat := by
  match script with
  | [] => simp [writeSys]
  | r :: rest =>
      simp only [writeSys]
      split
      case isTrue h =>
        rw [Int.toNat_of_nonpos h]
        rfl
      case isFalse h =>
        simp
        omega

theorem writeExactAux_pos (data : List Nat) (len : Nat) :
    ∀ (fuel wrote : Nat) (script : List Int) (out : List Nat),
      0 < (writeExactAux data len fuel wrote script out).1 →
      (writeExactAux data len fuel wrote script out).1 = (len : Int) ∧
      (writeExactAux data len fuel wrote script out).2.1 =
        out ++ (data.take len).drop wrote := by
  intro fuel
  induction fuel with
  | zero =>
      intro wrote script out hpos
      simp [writeExactAux] at hpos
  | succ fuel ih =>
      intro wrote script out hpos
      simp only [writeExactAux] at hpos ⊢
      by_cases hfail : (writeSys ((data.take len).drop wrote) script).1 ≤ 0
      · rw [if_pos hfail] at hpos
        exact absurd hpos (by omega)
      · rw [if_neg hfail] at hpos ⊢
        by_cases hlt :
            wrote + (writeSys ((data.take len).drop wrote) script).1.toNat < len
        · rw [if_pos hlt] at hpos ⊢
          obtain ⟨h1, h2⟩ := ih _ _ _ hpos
          refine ⟨h1, ?_⟩
          rw [h2, List.append_assoc]
          congr 1
          rw [writeSys_sent ((data.take len).drop wrote) script, ← List.drop_drop]
          exact List.take_append_drop _ _
        · rw [if_neg hlt] at hpos ⊢
          refine ⟨rfl, ?_⟩
          have hlen : ((data.take len).drop wrote).length ≤
              (writeSys ((data.take len).drop wrote) script).1.toNat := by
            simp only [List.length_drop, List.length_take]
            omega
          rw [writeSys_sent ((data.take len).drop wrote) script,
            List.take_of_length_le hlen]

theorem write_exact_pos (buf : List Nat) (len : Nat) (script : List Int)
    (hpos : 0 < (write_exact buf len script).1) :
    (write_exact buf len script).1 = (len : Int) ∧
    (write_exact buf len script).2.1 = buf.take len := by
  have h := writeExactAux_pos buf len (len + 1) 0 script [] hpos
  simpa using h

theorem write_exact_first_fail (buf : List Nat) (len : Nat) (script : List Int)
    (hfail : (writeSys (buf.take len) script).1 ≤ 0) :
    write_exact buf len script =
      ((writeSys (buf.take len) script).1, [], (writeSys (buf.take len) script).2.2) := by
  unfold write_exact
  simp only [writeExactAux, List.drop_zero]
  rw [if_pos hfail]

theorem write_exact_nil (buf : List Nat) (len : Nat) (h1 : 1 ≤ len)
    (hle : len ≤ buf.length) :
    write_exact buf len [] = ((len : Int), buf.take len, []) := by
  unfold write_exact
  simp only [writeExactAux, List.drop_zero, writeSys]
  have hlen : (buf.take len).length = len := by
    simp only [List.length_take]
    omega
  rw [hlen]
  rw [if_neg (by omega : ¬((len : Nat) : Int) ≤ 0), Int.toNat_ofNat]
  rw [if_neg (by omega : ¬0 + len < len)]
  simp

theorem write_cmd_nil_script (payload : List Nat) (h1 : 1 ≤ payload.length) :
    write_cmd payload payload.length [] =
      ((payload.length : Int),
        hiByte payload.length :: loByte payload.length :: payload, []) := by
  unfold write_cmd
  rw [write_exact_nil [hiByte payload.length] 1 (by omega) (by simp)]
  dsimp only
  rw [write_exact_nil [loByte payload.length] 1 (by omega) (by simp)]
  dsimp only
  rw [write_exact_nil payload payload.length h1 (Nat.le_refl _)]
  simp

/-- Counterexample to claim C4 as stated: with sink script `[-1,1,1,1]` the
FIRST underlying write fails with `-1`, yet `write_cmd` does not return the
failure and keeps writing — two further bytes `[1,7]` go out and the call
returns 1.  And with an all-accepting sink, `write_cmd` transmits the 3
bytes `[0,1,7]` but returns 1 (the payload length), not the number of
bytes written. -/
theorem write_cmd_header_failure_ignored :
    write_cmd [7] 1 [-1, 1, 1, 1] = (1, [1, 7], [1]) ∧
    write_cmd [7] 1 [] = (1, [0, 1, 7], []) := by
  decide

/-- Claim C4, amended: `write_exact` itself propagates a failing underlying
write (result `≤ 0`) immediately, transmitting nothing for it, and on
success (positive result) has transmitted exactly `buf[0..len)` in order,
returning `len`.  `write_cmd`, however, IGNORES the results of the two
header-byte `write_exact` calls (a header-write failure neither aborts nor
is reported), and returns the result of the body `write_exact` — on success
`N`, the payload length, not the `N + 2` bytes actually transmitted
(2-byte big-endian header followed by the `N` payload bytes). -/
theorem write_exact_propagates_write_cmd_ignores :
    (∀ (buf : List Nat) (len : Nat) (script : List Int),
      (writeSys (buf.take len) script).1 ≤ 0 →
      write_exact buf len script =
        ((writeSys (buf.take len) script).1, [],
          (writeSys (buf.take len) script).2.2)) ∧
    (∀ (buf : List Nat) (len : Nat) (script : List Int),
      0 < (write_exact buf len script).1 →
      (write_exact buf len script).1 = (len : Int) ∧
      (write_exact buf len script).2.1 = buf.take len) ∧
    (∀ payload : List Nat, 1 ≤ payload.length →
      write_cmd payload payload.length [] =
        ((payload.length : Int),
          hiByte payload.length :: loByte payload.length :: payload, [])) :=
  ⟨write_exact_first_fail, write_exact_pos, write_cmd_nil_script⟩

/-- Witness for C4 at concrete inputs: a first write scripted to fail with
0 is propagated with nothing transmitted; a sink accepting 2 bytes per
write still gets all of `[1,2,3]` with result 3; the all-success
`write_cmd` on payload `[7]` transmits header and body and returns 1. -/
theorem write_exact_write_cmd_witness :
    ((writeSys ([7].take 1) [0]).1 ≤ 0 ∧
      write_exact [7] 1 [0] =
        ((writeSys ([7].take 1) [0]).1, [], (writeSys ([7].take 1) [0]).2.2)) ∧
    (0 < (write_exact [1,2,3] 3 [2,2]).1 ∧
      (write_exact [1,2,3] 3 [2,2]).1 = (3 : Int) ∧
      (write_exact [1,2,3] 3 [2,2]).2.1 = [1,2,3].take 3) ∧
    write_cmd [7] 1 [] = ((1 : Int), hiByte 1 :: loByte 1 :: [7], []) :=
  ⟨⟨by decide,
      write_exact_propagates_write_cmd_ignores.1 [7] 1 [0] (by decide)⟩,
    ⟨by decide,
      (write_exact_propagates_write_cmd_ignores.2.1 [1,2,3] 3 [2,2] (by decide)).1,
      (write_exact_propagates_write_cmd_ignores.2.1 [1,2,3] 3 [2,2] (by decide)).2⟩,
    write_exact_propagates_write_cmd_ignores.2.2 [7] (by decide)⟩

theorem readSys_header (hi lo : Nat) (payload : List Nat)
    (h1 : 1 ≤ payload.length) :
    readSys 2 [Rd.data (hi :: lo :: payload)] = (2, [hi, lo], [Rd.data payload]) := by
  simp only [readSys]
  have hk : min 2 (hi :: lo :: payload).length = 2 := by
    simp only [List.length_cons]
    omega
  rw [hk, if_neg (by simp only [List.length_cons]; omega)]
  simp

theorem readSys_exact (payload : List Nat) :
    readSys payload.length [Rd.data payload] =
      ((payload.length : Int), payload, []) := by
  simp only [readSys, Nat.min_self, if_pos rfl]
  simp

/-- Counterexample to claim C7 as stated.  Two failures: (a) at `L = 0` the
round trip fails outright — `write_cmd` does emit the header `[0,0]`, but
on the read side the zero-byte body `read` returns 0, which `read_cmd`
treats as failure (result 0, not 2); also the zero-byte body `write`
returns 0, which the writer reports as failure.  (b) at `L = 4` against
capacity 2, growth fires and the source's memset zeroes the header in the
buffer: the payload comes back but the buffer header now decodes to 0,
not 4. -/
theorem write_read_roundtrip_fails_at_zero_and_growth :
    (write_cmd [] 0 []).2.1 = [0, 0] ∧
    (write_cmd [] 0 []).1 = 0 ∧
    (read_cmd 0 false ⟨[0,0,0,0], 4, 0⟩ [Rd.data (write_cmd [] 0 []).2.1]).1 = 0 ∧
    (read_cmd 170 false ⟨[0,0], 2, 0⟩
        [Rd.data (write_cmd [9,8,7,6] 4 []).2.1]).2.1.buf = [0,0,9,8,7,6] ∧
    frameLen (read_cmd 170 false ⟨[0,0], 2, 0⟩
        [Rd.data (write_cmd [9,8,7,6] 4 []).2.1]).2.1 = 0 := by
  decide

/-- Claim C7, amended: for every payload length `L` in `[1, 65535]` and
every payload of that length, writing the payload as a frame with
`write_cmd` and reading it back with `read_cmd` over the same byte stream
— into a buffer of capacity at least `max 2 L`, so that no growth occurs —
completes the frame (result 2) with cursor `L + 2`, reproduces exactly the
original payload bytes at `buffer[2..L+2)`, and leaves a buffer header
that decodes to length `L`. -/
theorem write_read_roundtrip (payload buf : List Nat) (sz g : Nat)
    (h1 : 1 ≤ payload.length) (h2 : payload.length ≤ 65535)
    (hbuf : buf.length = sz) (hsz2 : 2 ≤ sz) (hszN : payload.length ≤ sz) :
    (write_cmd payload payload.length []).1 = (payload.length : Int) ∧
    (read_cmd g false ⟨buf, sz, 0⟩
        [Rd.data (write_cmd payload payload.length []).2.1]).1 = 2 ∧
    (read_cmd g false ⟨buf, sz, 0⟩
        [Rd.data (write_cmd payload payload.length []).2.1]).2.1.curpos =
      payload.length + 2 ∧
    ((read_cmd g false ⟨buf, sz, 0⟩
        [Rd.data (write_cmd payload payload.length []).2.1]).2.1.buf.drop 2).take
      payload.length = payload ∧
    frameLen (read_cmd g false ⟨buf, sz, 0⟩
        [Rd.data (write_cmd payload payload.length []).2.1]).2.1 =
      payload.length := by
  have hw := write_cmd_nil_script payload h1
  have hhdr := readSys_header (hiByte payload.length) (loByte payload.length)
    payload h1
  have hst1 : storeBytes buf 0 [hiByte payload.length, loByte payload.length] =
      hiByte payload.length :: loByte payload.length :: buf.drop 2 := by
    simp [storeBytes]
  have hfl : frameLen ⟨hiByte payload.length :: loByte payload.length ::
      buf.drop 2, sz, 2⟩ = payload.length := by
    show decodeLen (hiByte payload.length) (loByte payload.length) = payload.length
    exact decodeLen_header payload.length h2
  have hdes : (desiredOf ⟨hiByte payload.length :: loByte payload.length ::
      buf.drop 2, sz, 2⟩).toNat = payload.length := by
    simp only [desiredOf]
    rw [hfl]
    omega
  have hpos : 0 < (readSys (desiredOf ⟨hiByte payload.length ::
      loByte payload.length :: buf.drop 2, sz, 2⟩).toNat [Rd.data payload]).1 := by
    rw [hdes, readSys_exact]
    omega
  have hrun : read_cmd g false ⟨buf, sz, 0⟩
      [Rd.data (hiByte payload.length :: loByte payload.length :: payload)] =
      (2, ⟨storeBytes (hiByte payload.length :: loByte payload.length ::
        buf.drop 2) 2 payload, sz, 2 + payload.length⟩, []) := by
    simp only [read_cmd, Nat.sub_zero, hhdr]
    norm_num [Int.toNat_ofNat]
    simp only [show Int.toNat 2 = 2 from rfl]
    rw [hst1, bodyPhase_noAllocFail, if_neg (by
      show ¬(⟨hiByte payload.length :: loByte payload.length :: buf.drop 2, sz, 2⟩ :
        RState).size < frameLen ⟨hiByte payload.length :: loByte payload.length ::
        buf.drop 2, sz, 2⟩
      rw [hfl]
      show ¬sz < payload.length
      omega)]
    rw [bodyRead_pos _ _ _ _ _ hpos, hdes, readSys_exact]
    simp
  refine ⟨by rw [hw], ?_, ?_, ?_, ?_⟩
  · rw [hw]
    dsimp only
    rw [hrun]
  · rw [hw]
    dsimp only
    rw [hrun]
    dsimp only
    omega
  · rw [hw]
    dsimp only
    rw [hrun]
    show ((payload ++ (hiByte payload.length :: loByte payload.length ::
      buf.drop 2).drop (2 + payload.length)).take payload.length) = payload
    exact List.take_left payload _
  · rw [hw]
    dsimp only
    rw [hrun]
    show decodeLen (hiByte payload.length) (loByte payload.length) = payload.length
    exact decodeLen_header payload.length h2

/-- Witness for C7 at a concrete input: payload `[9,8,7,6,5]` (`L = 5`),
capacity 7: the frame completes with cursor 7, the body bytes come back
unchanged and the buffer header decodes to 5. -/
theorem write_read_roundtrip_witness :
    (write_cmd [9,8,7,6,5] [9,8,7,6,5].length []).1 = ([9,8,7,6,5].length : Int) ∧
    (read_cmd 0 false ⟨[0,0,0,0,0,0,0], 7, 0⟩
        [Rd.data (write_cmd [9,8,7,6,5] [9,8,7,6,5].length []).2.1]).1 = 2 ∧
    (read_cmd 0 false ⟨[0,0,0,0,0,0,0], 7, 0⟩
        [Rd.data (write_cmd [9,8,7,6,5] [9,8,7,6,5].length []).2.1]).2.1.curpos =
      [9,8,7,6,5].length + 2 ∧
    ((read_cmd 0 false ⟨[0,0,0,0,0,0,0], 7, 0⟩
        [Rd.data (write_cmd [9,8,7,6,5] [9,8,7,6,5].length []).2.1]).2.1.buf.drop 2).take
      [9,8,7,6,5].length = [9,8,7,6,5] ∧
    frameLen (read_cmd 0 false ⟨[0,0,0,0,0,0,0], 7, 0⟩
        [Rd.data (write_cmd [9,8,7,6,5] [9,8,7,6,5].length []).2.1]).2.1 =
      [9,8,7,6,5].length :=
  write_read_roundtrip [9,8,7,6,5] [0,0,0,0,0,0,0] 7 0 (by decide) (by decide)
    (by decide) (by decide) (by decide)

end ErlComm
